import Mathlib

/-!
Shallow embedding of the Shopify product scraper (ask.py).

Python dictionaries that hold JSON-like data are modelled as association
lists of `String × JVal`; Python exceptions are modelled with `Except`;
external collaborators (BeautifulSoup, json.loads, the GPT service) are
modelled as explicit oracle parameters, since their behaviour is not part
of this repository.
-/

namespace SlashAsk

/-- JSON-like Python values, as produced by json.loads and handled by the
scraper. JSON floating-point numbers are not modelled (no checked claim
involves a float-valued field). -/
inductive JVal where
  | null
  | bool (b : Bool)
  | int (n : Int)
  | str (s : String)
  | list (xs : List JVal)
  | dict (kvs : List (String × JVal))
deriving Inhabited

/-- A Python dict holding JSON-like data, in insertion order. -/
abbrev Dict := List (String × JVal)

/-- Python truthiness of a JSON-like value. -/
def truthy : JVal → Bool
  | .null => false
  | .bool b => b
  | .int n => n != 0
  | .str s => s != ""
  | .list xs => !xs.isEmpty
  | .dict kvs => !kvs.isEmpty

/-- Lookup of a key in a dict, first occurrence. -/
def dlookup (d : Dict) (k : String) : Option JVal :=
  match d with
  | [] => none
  | (k', v) :: rest => if k' = k then some v else dlookup rest k

/-- Python d.get(k, default). -/
def dget (d : Dict) (k : String) (default : JVal) : JVal :=
  (dlookup d k).getD default

/-- Python d.get(k) with no default: absent keys yield None. -/
def dgetN (d : Dict) (k : String) : JVal :=
  dget d k .null

/-- Python assignment d[k] = v: updates the first occurrence in place,
appends when the key is absent. -/
def dset (d : Dict) (k : String) (v : JVal) : Dict :=
  match d with
  | [] => [(k, v)]
  | (k', v') :: rest => if k' = k then (k', v) :: rest else (k', v') :: dset rest k v

/-- Python substring test: pat in s. -/
def pyIn (pat s : String) : Bool :=
  decide (pat.data <:+: s.data)

/-- Python str.lower() per character, for the ASCII range the scraper
compares against (non-ASCII case mapping is not modelled; every keyword
the code lowercases against is ASCII). -/
def pyCharLower (c : Char) : Char :=
  if c.isUpper then Char.ofNat (c.toNat + 32) else c

/-- Python str.lower(). -/
def pyLower (s : String) : String :=
  String.mk (s.data.map pyCharLower)

/-- Python str.strip() with no argument: surrounding whitespace removed. -/
def pyStrip (s : String) : String :=
  String.mk (((s.data.dropWhile Char.isWhitespace).reverse.dropWhile
    Char.isWhitespace).reverse)

/-- Python x or "" as used in the normalizer: keep a truthy value,
replace a falsy one with the empty string. -/
def orEmptyStr (v : JVal) : JVal :=
  if truthy v then v else .str ""

/-- The conditional expression x if isinstance(x, list) else [] used by the
normalizer for the tags and images fields. -/
def listOr : JVal → JVal
  | .list xs => .list xs
  | _ => .list []

/-- Python v == 0 for JSON-like values (True/False compare as 1/0). -/
def isPyZero : JVal → Bool
  | .int n => n == 0
  | .bool b => !b
  | _ => false

/-- Python v == "None" for JSON-like values. -/
def isNoneStr : JVal → Bool
  | .str s => s == "None"
  | _ => false

/-! ## Availability mapping (ask.py lines 584-597) -/

def InStockURI : String := "https://schema.org/InStock"
def OutOfStockURI : String := "https://schema.org/OutOfStock"
def PreOrderURI : String := "https://schema.org/PreOrder"

/-- _map_availability on a string argument (ask.py lines 584-597).
The falsy guard `if not availability` reduces to the empty-string test
here; the non-string falsy arguments are handled by the caller-side
wrapper `map_availability_val` below. -/
def map_availability (availability : String) : String :=
  if availability = "" then InStockURI
  else
    let availability_lower := pyLower availability
    if pyIn "in stock" availability_lower || pyIn "available" availability_lower then
      InStockURI
    else if pyIn "out of stock" availability_lower || pyIn "unavailable" availability_lower then
      OutOfStockURI
    else if pyIn "pre-order" availability_lower || pyIn "preorder" availability_lower then
      PreOrderURI
    else
      InStockURI

/-- _map_availability applied to an arbitrary JSON-like value, as the
normalizer does: a falsy value returns the InStock URI, a truthy string
goes through the keyword chain, and any other truthy value raises
(availability.lower() is not defined on it). -/
def map_availability_val (v : JVal) : Except String String :=
  if truthy v then
    match v with
    | .str s => .ok (map_availability s)
    | _ => .error "AttributeError: lower"
  else .ok InStockURI

/-! ## Python str() and int() on JSON-like values -/

mutual

/-- Python repr of a JSON-like value (container elements are shown with
repr, so strings gain quotes). String escaping inside containers is not
modelled; no checked claim depends on it. -/
def pyRepr : JVal → String
  | .null => "None"
  | .bool b => if b then "True" else "False"
  | .int n => toString n
  | .str s => "\x27" ++ s ++ "\x27"
  | .list xs => "[" ++ pyReprList xs ++ "]"
  | .dict kvs => "\x7b" ++ pyReprDict kvs ++ "\x7d"

def pyReprList : List JVal → String
  | [] => ""
  | [x] => pyRepr x
  | x :: y :: rest => pyRepr x ++ ", " ++ pyReprList (y :: rest)

def pyReprDict : List (String × JVal) → String
  | [] => ""
  | [(k, v)] => "\x27" ++ k ++ "\x27: " ++ pyRepr v
  | (k, v) :: p :: rest => "\x27" ++ k ++ "\x27: " ++ pyRepr v ++ ", " ++ pyReprDict (p :: rest)

end

/-- Python str() of a JSON-like value: identity on strings, "None" for
None, repr otherwise. -/
def pyStr : JVal → String
  | .null => "None"
  | .str s => s
  | v => pyRepr v

/-- Parse a run of decimal digits as a natural number. -/
def digitsVal (cs : List Char) : Nat :=
  cs.foldl (fun acc c => acc * 10 + (c.toNat - 48)) 0

/-- Python int() on a string: optional surrounding whitespace, optional
sign, one or more decimal digits. (Numeric-literal underscores are not
modelled; no checked claim uses them.) -/
def pyIntOfString (s : String) : Except String Int :=
  let cs := (pyStrip s).data
  let neg : Bool := cs.head? = some '-'
  let ds : List Char :=
    match cs with
    | '-' :: rest => rest
    | '+' :: rest => rest
    | rest => rest
  if ds ≠ [] ∧ ds.all (·.isDigit) then
    let n : Int := (digitsVal ds : Nat)
    .ok (if neg then -n else n)
  else .error "ValueError: invalid literal for int()"

/-- Python int() on a JSON-like value. -/
def pyInt : JVal → Except String Int
  | .int n => .ok n
  | .bool b => .ok (if b then 1 else 0)
  | .str s => pyIntOfString s
  | _ => .error "TypeError: int() argument"

/-! ## Per-record normalization (generate_schema_org_output, ask.py lines 551-581) -/

/-- The price_cents computation of the normalizer:
int(x.get("price", 0)) if x.get("price") else 0. -/
def normalizePrice (d : Dict) : Except String Int :=
  if truthy (dgetN d "price") then pyInt (dget d "price" (.int 0)) else .ok 0

/-- Normalization of one variant dict (ask.py lines 568-578), building the
output dict literal in source order. -/
def normalizeVariant (variant : Dict) : Except String Dict :=
  match normalizePrice variant with
  | .error e => .error e
  | .ok price_cents =>
    match map_availability_val (dget variant "availability" (.str "")) with
    | .error e => .error e
    | .ok availability =>
      .ok [
        ("variant_id", .str (pyStr (dget variant "id" (.str "")))),
        ("name", orEmptyStr (dget variant "name" (.str ""))),
        ("sku", orEmptyStr (dget variant "sku" (.str ""))),
        ("price_cents", .int price_cents),
        ("availability", .str availability),
        ("image_url", orEmptyStr (dget variant "image" (.str ""))),
        ("options",
          match dget variant "options" (.dict []) with
          | .dict kvs => .dict kvs
          | _ => .dict [])]

/-- The variant loop: for variant in product.get("variants", []).
Iterating a non-list raises, except that an empty string or empty dict
iterates zero times. -/
def normalizeVariantList : List JVal → Except String (List Dict)
  | [] => .ok []
  | v :: rest =>
    match v with
    | .dict kvs =>
      match normalizeVariant kvs with
      | .error e => .error e
      | .ok out =>
        match normalizeVariantList rest with
        | .error e => .error e
        | .ok outs => .ok (out :: outs)
    | _ => .error "AttributeError: get"

def normalizeVariantsField : JVal → Except String (List Dict)
  | .list vs => normalizeVariantList vs
  | .str s => if s = "" then .ok [] else .error "AttributeError: get"
  | .dict kvs => if kvs.isEmpty then .ok [] else .error "AttributeError: get"
  | _ => .error "TypeError: not iterable"

/-- Normalization of one product record (ask.py lines 552-579): the dict
literal is built with price_cents and availability computed in source
order, then the variant loop runs. -/
def normalizeProduct (product : Dict) : Except String Dict :=
  match normalizePrice product with
  | .error e => .error e
  | .ok price_cents =>
    match map_availability_val (dget product "availability" (.str "")) with
    | .error e => .error e
    | .ok availability =>
      match normalizeVariantsField (dget product "variants" (.list [])) with
      | .error e => .error e
      | .ok variants =>
        .ok [
          ("product_id", .str (pyStr (dget product "id" (.str "")))),
          ("name", orEmptyStr (dget product "name" (.str ""))),
          ("description", orEmptyStr (dget product "description" (.str ""))),
          ("brand", orEmptyStr (dget product "vendor" (.str ""))),
          ("category", orEmptyStr (dget product "type" (.str ""))),
          ("tags", listOr (dgetN product "tags")),
          ("url", orEmptyStr (dget product "url" (.str ""))),
          ("image_urls", listOr (dgetN product "images")),
          ("price_cents", .int price_cents),
          ("availability", .str availability),
          ("variants", .list (variants.map .dict))]

/-- The per-record normalization pass of generate_schema_org_output
applied to the aggregated record list (the surrounding schema comment and
json.dumps serialization are plain text concatenation). -/
def generate_schema_org_records : List Dict → Except String (List Dict)
  | [] => .ok []
  | p :: rest =>
    match normalizeProduct p with
    | .error e => .error e
    | .ok out =>
      match generate_schema_org_records rest with
      | .error e => .error e
      | .ok outs => .ok (out :: outs)

/-! ## BeautifulSoup oracle

BeautifulSoup is an external library; the parsed page is modelled as an
oracle giving, for each CSS selector, the matching elements in document
order. An element exposes its attributes, its get_text() content and its
.string content. -/

structure Element where
  attrs : List (String × String)
  text : String
  strContent : Option String

/-- element.get(attr). -/
def Element.getAttr (e : Element) (a : String) : Option String :=
  e.attrs.lookup a

structure Soup where
  select : String → List Element

/-- soup.select_one(sel): first match of soup.select(sel). -/
def Soup.select_one (s : Soup) (sel : String) : Option Element :=
  (s.select sel).head?

/-! ## Price text parsing (ask.py lines 255-258 and 359-362)

re.search of the pattern dollar-sign? ( digits+ dot? digits* ) takes the
first match in the text; the group is converted with int(float(g) * 100).
The conversion is modelled with exact decimal arithmetic truncated toward
zero; Python computes it through binary floating point, which agrees on
the inputs the claims use (integral cent values such as 150.00). -/

/-- Group captured when the pattern matches at a position whose first
character is a digit: the maximal digit run, then an optional dot and a
further maximal digit run. -/
def priceGroupFromDigits (cs : List Char) : List Char :=
  let ds := cs.takeWhile (·.isDigit)
  match cs.dropWhile (·.isDigit) with
  | '.' :: tail => ds ++ '.' :: tail.takeWhile (·.isDigit)
  | _ => ds

/-- Attempt to match the price pattern at the start of cs. -/
def matchPriceGroupAt : List Char → Option (List Char)
  | [] => none
  | c :: rest =>
    if c.isDigit then some (priceGroupFromDigits (c :: rest))
    else if c = '$' then
      match rest with
      | d :: _ => if d.isDigit then some (priceGroupFromDigits rest) else none
      | [] => none
    else none

/-- re.search: first position where the price pattern matches. -/
def searchPriceGroup : List Char → Option (List Char)
  | [] => none
  | c :: rest =>
    match matchPriceGroupAt (c :: rest) with
    | some g => some g
    | none => searchPriceGroup rest

/-- int(float(group) * 100) with exact decimal arithmetic. -/
def groupCents (g : List Char) : Int :=
  let ip := g.takeWhile (·.isDigit)
  let fp : List Char :=
    match g.dropWhile (·.isDigit) with
    | '.' :: tail => tail
    | _ => []
  ((digitsVal ip * 100 + digitsVal fp * 100 / 10 ^ fp.length : Nat) : Int)

/-- The structural price parser applied to one price text. -/
def priceTextToCents (text : String) : Option Int :=
  (searchPriceGroup text.data).map groupCents

/-! ## Structural scans shared by the fixup stage and the fallback
extractor (the selector lists and loop bodies are textually identical at
ask.py lines 245-259 vs 349-363, 264-281 vs 366-382 and 285-295 vs
385-395). -/

def price_selectors : List String :=
  [".price__regular .price-item--regular",
   ".product__price .price-item--regular",
   "[data-price]",
   ".price"]

/-- First selector whose element exists and whose stripped text parses;
a selector whose element has unparseable text is skipped, not final. -/
def scanPrice (soup : Soup) : Option Int :=
  price_selectors.findSome? fun sel =>
    match soup.select_one sel with
    | some price_elem => priceTextToCents (pyStrip price_elem.text)
    | none => none

def img_selectors : List String :=
  [".product__media img",
   ".product-single__photo img",
   ".product__image img",
   "img[data-src]",
   "img[src*=\"cdn.shopify.com\"]"]

/-- Protocol normalization of a CDN image URL. -/
def normalizeSrc (src : String) : String :=
  if src.startsWith "http" then src
  else if src.startsWith "//" then "https:" ++ src
  else "https://" ++ src

/-- src = img.get("src") or img.get("data-src"), kept when truthy and on
the Shopify CDN. -/
def imgSrc (img : Element) : Option String :=
  let src : Option String :=
    match img.getAttr "src" with
    | some s => if s ≠ "" then some s else img.getAttr "data-src"
    | none => img.getAttr "data-src"
  match src with
  | some s => if s ≠ "" ∧ pyIn "cdn.shopify.com" s then some (normalizeSrc s) else none
  | none => none

/-- First selector contributing at least one CDN image wins (the loop
accumulates then breaks once the list is non-empty). -/
def scanImages (soup : Soup) : List String :=
  match img_selectors.findSome? (fun sel =>
    let imgs := (soup.select sel).filterMap imgSrc
    if imgs.isEmpty then none else some imgs) with
  | some imgs => imgs
  | none => []

def desc_selectors : List String :=
  [".product__description",
   ".product-single__description",
   "[data-product-description]",
   ".rte"]

/-- First selector whose element exists wins; its stripped text is taken
even when empty. -/
def scanDescription (soup : Soup) : Option String :=
  desc_selectors.findSome? fun sel =>
    (soup.select_one sel).map (fun e => pyStrip e.text)

def name_selectors : List String :=
  ["h1.product-single__title",
   ".product__title h1",
   "h1[data-product-title]",
   "h1"]

def scanName (soup : Soup) : Option String :=
  name_selectors.findSome? fun sel =>
    (soup.select_one sel).map (fun e => pyStrip e.text)

/-! ## Product id recovery in the fixup stage (ask.py lines 214-241) -/

def id_selectors : List String :=
  ["[data-product-id]",
   "[data-product-id]",
   ".product-single__meta [data-product-id]",
   "script[type=\"application/ld+json\"]"]

/-- The JSON-LD arm: element.string must be truthy and contain the
Product type marker; json.loads must yield a dict of type Product with a
truthy string @id (a non-string @id raises on .split and the bare except
skips the element). -/
def idFromJsonLd (jsonLoads : String → Option JVal) (e : Element) : Option String :=
  match e.strContent with
  | some s =>
    if s ≠ "" ∧ pyIn "\"@type\":\"Product\"" s then
      match jsonLoads s with
      | some (.dict kvs) =>
        if isProductTypeStr (dgetN kvs "@type") then
          match dgetN kvs "@id" with
          | .str gs => if gs ≠ "" then some ((gs.splitOn "/").getLastD "") else none
          | _ => none
        else none
      | _ => none
    else none
  | none => none
where
  /-- Python json_data.get("@type") == "Product". -/
  isProductTypeStr : JVal → Bool
    | .str t => t == "Product"
    | _ => false

/-- One element of the inner loop: a truthy data-product-id attribute
wins, otherwise the JSON-LD arm is tried. -/
def idFromElement (jsonLoads : String → Option JVal) (e : Element) : Option String :=
  match e.getAttr "data-product-id" with
  | some v => if v ≠ "" then some v else idFromJsonLd jsonLoads e
  | none => idFromJsonLd jsonLoads e

/-- The selector loop of the id fix: the inner loop breaks at the first
element that yields an id, but the outer loop continues through every
selector, so a later selector overwrites an earlier result. -/
def extract_product_id (soup : Soup) (jsonLoads : String → Option JVal) : Option String :=
  id_selectors.foldl
    (fun product_id sel =>
      match (soup.select sel).findSome? (idFromElement jsonLoads) with
      | some v => some v
      | none => product_id)
    none

/-! ## Variant stub and the fixup stage -/

/-- _extract_variants_from_html (ask.py lines 303-305): extraction is
disabled and always returns the empty list. -/
def _extract_variants_from_html (_soup : Soup) : List JVal := []

/-- Python isinstance(v, list). -/
def isJList : JVal → Bool
  | .list _ => true
  | _ => false

/-- Fix vendor if null (ask.py lines 209-211): any falsy vendor is
replaced with the configured store name. -/
def vendor_fix (pd : Dict) : Dict :=
  if truthy (dgetN pd "vendor") then pd
  else dset pd "vendor" (.str "Down to Earth Project LLC")

/-- Fix id and gid (ask.py lines 213-241): runs when id is falsy or the
string "None"; a recovered id also overwrites gid. -/
def id_fix (soup : Soup) (jsonLoads : String → Option JVal) (pd : Dict) : Dict :=
  if !truthy (dgetN pd "id") || isNoneStr (dgetN pd "id") then
    match extract_product_id soup jsonLoads with
    | some product_id =>
      dset (dset pd "id" (.str product_id)) "gid"
        (.str ("gid://shopify/Product/" ++ product_id))
    | none => pd
  else pd

/-- Fix price (ask.py lines 243-259): runs when price is falsy or equal
to 0. -/
def price_fix (soup : Soup) (pd : Dict) : Dict :=
  if !truthy (dgetN pd "price") || isPyZero (dgetN pd "price") then
    match scanPrice soup with
    | some price => dset pd "price" (.int price)
    | none => pd
  else pd

/-- Fix images (ask.py lines 261-281): runs when images is falsy or not a
list, and always stores the scan result, possibly the empty list. -/
def images_fix (soup : Soup) (pd : Dict) : Dict :=
  if !truthy (dgetN pd "images") || !(isJList (dgetN pd "images")) then
    dset pd "images" (.list ((scanImages soup).map .str))
  else pd

/-- Fix description (ask.py lines 283-295): runs when description is
falsy. -/
def description_fix (soup : Soup) (pd : Dict) : Dict :=
  if !truthy (dgetN pd "description") then
    match scanDescription soup with
    | some d => dset pd "description" (.str d)
    | none => pd
  else pd

/-- Fix variants (ask.py lines 297-299): runs when variants is falsy, not
a list, or empty (the source spells the emptiness test as a second
truthiness test). -/
def variants_fix (soup : Soup) (pd : Dict) : Dict :=
  if !truthy (dgetN pd "variants") || !(isJList (dgetN pd "variants"))
      || !truthy (dgetN pd "variants") then
    dset pd "variants" (.list (_extract_variants_from_html soup))
  else pd

/-- _apply_fallback_fixes (ask.py lines 205-301): the six fix blocks in
source order. The url parameter of the source is unused in its body and
omitted; html_content appears as the parsed soup. -/
def _apply_fallback_fixes (product_data : Dict) (soup : Soup)
    (jsonLoads : String → Option JVal) : Dict :=
  variants_fix soup
    (description_fix soup
      (images_fix soup
        (price_fix soup
          (id_fix soup jsonLoads
            (vendor_fix product_data)))))

/-! ## Structural fallback extraction (ask.py lines 307-410) -/

/-- The initial record literal of _fallback_extraction. -/
def fallback_initial (url : String) : Dict :=
  [("url", .str url),
   ("vendor", .str "Down to Earth Project LLC"),
   ("name", .str ""),
   ("price", .int 0),
   ("id", .null),
   ("gid", .null),
   ("description", .str ""),
   ("images", .list []),
   ("availability", .str "in stock"),
   ("tags", .list []),
   ("type", .null),
   ("sku", .null),
   ("variant_id", .null),
   ("public_title", .null),
   ("weight", .null),
   ("dimensions", .null),
   ("tax_info", .null),
   ("reviews", .list []),
   ("variants", .list [])]

/-- re.search of /products/([^/?]+) over the url: first occurrence of the
literal segment marker that is followed by at least one character other
than slash and question mark; the group is the maximal such run. -/
def slugMatchAt (cs : List Char) : Option String :=
  if "/products/".data.isPrefixOf cs then
    let slug := (cs.drop 10).takeWhile (fun c => c ≠ '/' ∧ c ≠ '?')
    if slug.isEmpty then none else some (String.mk slug)
  else none

def searchSlug : List Char → Option String
  | [] => none
  | c :: rest =>
    match slugMatchAt (c :: rest) with
    | some s => some s
    | none => searchSlug rest

def productSlugFromUrl (url : String) : Option String :=
  searchSlug url.data

/-- The body of _fallback_extraction after BeautifulSoup succeeded. -/
def _fallback_extraction_body (soup : Soup) (url : String) : Dict :=
  let pd := fallback_initial url
  let pd := match scanName soup with
    | some n => dset pd "name" (.str n)
    | none => pd
  let pd := match scanPrice soup with
    | some price => dset pd "price" (.int price)
    | none => pd
  -- the image loop appends into the initially empty images list; writing
  -- the scan result is equal also when the scan is empty
  let pd := dset pd "images" (.list ((scanImages soup).map .str))
  let pd := match scanDescription soup with
    | some d => dset pd "description" (.str d)
    | none => pd
  let pd := match productSlugFromUrl url with
    | some slug =>
      dset (dset pd "id" (.str slug)) "gid" (.str ("gid://shopify/Product/" ++ slug))
    | none => pd
  let pd := dset pd "variants" (.list (_extract_variants_from_html soup))
  pd

/-- _fallback_extraction: the whole body runs inside try/except; an
internal error (modelled by the soup oracle failing, as BeautifulSoup is
the only fallible step of the body) is caught and yields no record. -/
def _fallback_extraction (soupE : Except String Soup) (url : String) : Option Dict :=
  match soupE with
  | .ok soup => some (_fallback_extraction_body soup url)
  | .error _ => none

/-! ## Primary extraction wrapper (ask.py lines 129-203) -/

/-- re.search of curly-brace .* curly-brace with DOTALL over the GPT
response: from the first opening brace through the last closing brace,
when the latter exists. -/
def findJsonSubstring (content : String) : Option String :=
  let fromBrace := content.data.dropWhile (· ≠ '\x7b')
  match fromBrace with
  | [] => none
  | _ :: _ =>
    let upToBrace := (fromBrace.reverse.dropWhile (· ≠ '\x7d')).reverse
    match upToBrace with
    | [] => none
    | _ :: _ => some (String.mk upToBrace)

/-- extract_product_data_with_gpt. The GPT service call is an oracle that
either returns the response content or raises; json.loads is an oracle
returning none when it raises; the BeautifulSoup parse of the page is the
shared soup oracle. Any exception in the try body falls back to
_fallback_extraction on the same page content and url. -/
def extract_product_data_with_gpt (gptContent : Except String String)
    (jsonLoads : String → Option JVal) (soupE : Except String Soup)
    (url : String) : Option Dict :=
  match gptContent with
  | .error _ => _fallback_extraction soupE url
  | .ok raw =>
    let content := pyStrip raw
    match findJsonSubstring content with
    | none => _fallback_extraction soupE url
    | some js =>
      match jsonLoads js with
      | none => _fallback_extraction soupE url
      | some (.dict kvs) =>
        let product_data := dset kvs "url" (.str url)
        match soupE with
        | .ok soup => some (_apply_fallback_fixes product_data soup jsonLoads)
        | .error _ => _fallback_extraction soupE url
      | some _ => _fallback_extraction soupE url

/-! ## Sitemap URL extraction (ask.py lines 89-127)

ElementTree is modelled by a tree of elements; findall with the .//tag
path returns the proper descendants with that tag in document order, and
find with a plain tag returns the first direct child with that tag. -/

inductive XmlElem where
  | mk (tag : String) (text : Option String) (children : List XmlElem)

def XmlElem.tag : XmlElem → String
  | .mk t _ _ => t

def XmlElem.textContent : XmlElem → Option String
  | .mk _ x _ => x

def XmlElem.children : XmlElem → List XmlElem
  | .mk _ _ c => c

theorem XmlElem.tag_mk (t : String) (x : Option String) (c : List XmlElem) :
    XmlElem.tag (.mk t x c) = t := rfl

theorem XmlElem.textContent_mk (t : String) (x : Option String) (c : List XmlElem) :
    XmlElem.textContent (.mk t x c) = x := rfl

theorem XmlElem.children_mk (t : String) (x : Option String) (c : List XmlElem) :
    XmlElem.children (.mk t x c) = c := rfl

def preorderList : List XmlElem → List XmlElem
  | [] => []
  | .mk t x ch :: rest => .mk t x ch :: (preorderList ch ++ preorderList rest)

def findall_desc (root : XmlElem) (tag : String) : List XmlElem :=
  (preorderList root.children).filter (fun e => e.tag = tag)

def find_child (e : XmlElem) (tag : String) : Option XmlElem :=
  e.children.find? (fun c => c.tag = tag)

/-- The three namespace candidates, in source order. -/
def sitemap_namespaces : List String :=
  ["\x7bhttp://www.sitemaps.org/schemas/sitemap/0.9\x7d",
   "",
   "\x7bhttp://www.google.com/schemas/sitemap/0.84\x7d"]

/-- One url element: its loc child must exist with truthy text, and the
text must contain a product-path marker case-insensitively. -/
def locUrl (ns : String) (url_elem : XmlElem) : Option String :=
  match find_child url_elem (ns ++ "loc") with
  | some loc =>
    match loc.textContent with
    | some url_text =>
      if url_text ≠ "" ∧
          (pyIn "/products/" (pyLower url_text) ∨ pyIn "/product/" (pyLower url_text)) then
        some url_text
      else none
    | none => none
  | none => none

/-- One iteration of the namespace loop: the url elements for this
namespace form, or none when there are none (so the loop moves on). -/
def urls_for_namespace (root : XmlElem) (ns : String) : Option (List String) :=
  let url_elements := findall_desc root (ns ++ "url")
  if url_elements.isEmpty then none
  else some (url_elements.filterMap (locUrl ns))

/-- The namespace loop of get_product_urls_from_sitemap on a parsed
document: the first namespace form that yields any url elements wins,
even when none of them passes the product filter. -/
def get_product_urls_from_sitemap (root : XmlElem) : List String :=
  match sitemap_namespaces.findSome? (urls_for_namespace root) with
  | some product_urls => product_urls
  | none => []

/-- One encoded url element: it carries a loc child with the given text
when present. -/
def urlElemE (ns : String) (loc : Option String) : XmlElem :=
  .mk (ns ++ "url") none
    (match loc with
     | some t => [.mk (ns ++ "loc") (some t) []]
     | none => [])

/-- Encoding of abstract sitemap content in a given namespace form: one
url element per entry under a urlset root. -/
def encodeSitemap (ns : String) (entries : List (Option String)) : XmlElem :=
  .mk (ns ++ "urlset") none (entries.map (urlElemE ns))

/-- The candidate a single sitemap entry contributes, independent of the
namespace form. -/
def sitemap_candidate (loc : Option String) : Option String :=
  match loc with
  | some t =>
    if t ≠ "" ∧ (pyIn "/products/" (pyLower t) ∨ pyIn "/product/" (pyLower t)) then
      some t
    else none
  | none => none

def sitemap_candidate_urls (entries : List (Option String)) : List String :=
  entries.filterMap sitemap_candidate

/-! ## Orchestrator deduplication (ask.py lines 458-468)

all_product_urls = list(set(all_product_urls)) and one task is submitted
per element of the result. Python leaves the iteration order of a set
unspecified; the submitted collection is modelled by List.dedup, and the
claims checked about it are order-independent. -/

def scrape_all_products_submissions (all_product_urls : List String) : List String :=
  all_product_urls.dedup

/-! # Supporting lemmas -/

theorem dlookup_dset (d : Dict) (k k' : String) (v : JVal) :
    dlookup (dset d k' v) k = if k' = k then some v else dlookup d k := by
  induction d with
  | nil => simp [dset, dlookup]
  | cons p rest ih =>
    obtain ⟨k0, v0⟩ := p
    by_cases h0 : k0 = k'
    · subst h0
      by_cases hk : k0 = k <;> simp [dset, dlookup, hk]
    · by_cases hk : k0 = k
      · subst hk
        have : ¬ k' = k0 := fun h => h0 h.symm
        simp [dset, dlookup, h0, this]
      · simp [dset, dlookup, h0, hk, ih]

theorem orEmptyStr_str (s : String) : orEmptyStr (.str s) = .str s := by
  by_cases h : s = "" <;> simp [orEmptyStr, truthy, h]

theorem map_availability_total (s : String) :
    map_availability s = InStockURI ∨ map_availability s = OutOfStockURI ∨
      map_availability s = PreOrderURI := by
  by_cases h0 : s = ""
  · simp [map_availability, h0]
  · by_cases h1 : (pyIn "in stock" (pyLower s) || pyIn "available" (pyLower s)) = true
    · simp [map_availability, h0, h1]
    · by_cases h2 : (pyIn "out of stock" (pyLower s) || pyIn "unavailable" (pyLower s)) = true
      · simp [map_availability, h0, h1, h2]
      · by_cases h3 : (pyIn "pre-order" (pyLower s) || pyIn "preorder" (pyLower s)) = true
        · simp [map_availability, h0, h1, h2, h3]
        · simp [map_availability, h0, h1, h2, h3]

theorem pyIn_available_of_unavailable {s : String}
    (h : pyIn "unavailable" s = true) : pyIn "available" s = true := by
  unfold pyIn at h ⊢
  rw [decide_eq_true_eq] at h ⊢
  exact List.IsInfix.trans (by decide) h

theorem map_availability_val_str (s : String) :
    map_availability_val (.str s) = .ok (map_availability s) := by
  by_cases h : s = "" <;>
    simp [map_availability_val, truthy, h, map_availability]

/-- Inversion of a successful product normalization: the three computed
components succeeded and the output is the schema dict literal. -/
theorem normalizeProduct_ok_elim {p r : Dict} (h : normalizeProduct p = .ok r) :
    ∃ pc av vs, normalizePrice p = .ok pc ∧
      map_availability_val (dget p "availability" (.str "")) = .ok av ∧
      normalizeVariantsField (dget p "variants" (.list [])) = .ok vs ∧
      r = [("product_id", .str (pyStr (dget p "id" (.str "")))),
           ("name", orEmptyStr (dget p "name" (.str ""))),
           ("description", orEmptyStr (dget p "description" (.str ""))),
           ("brand", orEmptyStr (dget p "vendor" (.str ""))),
           ("category", orEmptyStr (dget p "type" (.str ""))),
           ("tags", listOr (dgetN p "tags")),
           ("url", orEmptyStr (dget p "url" (.str ""))),
           ("image_urls", listOr (dgetN p "images")),
           ("price_cents", .int pc),
           ("availability", .str av),
           ("variants", .list (vs.map .dict))] := by
  unfold normalizeProduct at h
  cases hpc : normalizePrice p with
  | error e => rw [hpc] at h; exact absurd h (by simp)
  | ok pc =>
    rw [hpc] at h
    cases hav : map_availability_val (dget p "availability" (.str "")) with
    | error e => rw [hav] at h; exact absurd h (by simp)
    | ok av =>
      rw [hav] at h
      cases hvs : normalizeVariantsField (dget p "variants" (.list [])) with
      | error e => rw [hvs] at h; exact absurd h (by simp)
      | ok vs =>
        rw [hvs] at h
        exact ⟨pc, av, vs, rfl, rfl, rfl, ((Except.ok.injEq _ _).mp h).symm⟩

/-- Inversion of a successful variant normalization. -/
theorem normalizeVariant_ok_elim {p r : Dict} (h : normalizeVariant p = .ok r) :
    ∃ pc av, normalizePrice p = .ok pc ∧
      map_availability_val (dget p "availability" (.str "")) = .ok av ∧
      r = [("variant_id", .str (pyStr (dget p "id" (.str "")))),
           ("name", orEmptyStr (dget p "name" (.str ""))),
           ("sku", orEmptyStr (dget p "sku" (.str ""))),
           ("price_cents", .int pc),
           ("availability", .str av),
           ("image_url", orEmptyStr (dget p "image" (.str ""))),
           ("options",
             match dget p "options" (.dict []) with
             | .dict kvs => .dict kvs
             | _ => .dict [])] := by
  unfold normalizeVariant at h
  cases hpc : normalizePrice p with
  | error e => rw [hpc] at h; exact absurd h (by simp)
  | ok pc =>
    rw [hpc] at h
    cases hav : map_availability_val (dget p "availability" (.str "")) with
    | error e => rw [hav] at h; exact absurd h (by simp)
    | ok av =>
      rw [hav] at h
      exact ⟨pc, av, rfl, rfl, ((Except.ok.injEq _ _).mp h).symm⟩

/-- A price field holding an integer passes through int() unchanged (a
falsy 0 short-circuits to the same value). -/
theorem normalizePrice_int {p : Dict} {n : Int}
    (h : dlookup p "price" = some (.int n)) : normalizePrice p = .ok n := by
  unfold normalizePrice dgetN dget
  rw [h]
  by_cases hn : n = 0 <;> simp [truthy, hn, pyInt]

/-- An absent, null, zero or empty-string price yields cents 0. -/
theorem normalizePrice_default {p : Dict}
    (h : dlookup p "price" = none ∨ dlookup p "price" = some .null ∨
      dlookup p "price" = some (.int 0) ∨ dlookup p "price" = some (.str "")) :
    normalizePrice p = .ok 0 := by
  unfold normalizePrice dgetN dget
  rcases h with h | h | h | h <;> rw [h] <;> simp [truthy]

/-- A truthy string price that int() cannot parse makes the shared
price_cents computation raise. -/
theorem normalizePrice_badstr {p : Dict} {s m : String}
    (hs : dlookup p "price" = some (.str s)) (hne : s ≠ "")
    (hbad : pyIntOfString s = .error m) : normalizePrice p = .error m := by
  unfold normalizePrice dgetN dget
  rw [hs]
  simp [truthy, hne, pyInt, hbad]

/-- A truthy string price that int() cannot parse raises out of the
normalizer. -/
theorem normalizeProduct_badPrice {p : Dict} {s m : String}
    (hs : dlookup p "price" = some (.str s)) (hne : s ≠ "")
    (hbad : pyIntOfString s = .error m) : normalizeProduct p = .error m := by
  unfold normalizeProduct
  rw [normalizePrice_badstr hs hne hbad]

/-- The same raise for a variant record. -/
theorem normalizeVariant_badPrice {v : Dict} {s m : String}
    (hs : dlookup v "price" = some (.str s)) (hne : s ≠ "")
    (hbad : pyIntOfString s = .error m) : normalizeVariant v = .error m := by
  unfold normalizeVariant
  rw [normalizePrice_badstr hs hne hbad]

/-! ## Records already in the normalized output shape

The output schema of generate_schema_org_output gives every serialized
variant the fields variant_id, name, sku, price_cents, availability,
image_url, options, and every serialized product the fields product_id,
name, description, brand, category, tags, url, image_urls, price_cents,
availability, variants. The following shapes describe records that
already carry exactly those fields with schema-typed values. -/

structure NVariant where
  vid : String
  vname : String
  vsku : String
  vprice : Int
  vavail : String
  vimage : String
  vopts : List (String × JVal)

def NVariant.toDict (v : NVariant) : Dict :=
  [("variant_id", .str v.vid),
   ("name", .str v.vname),
   ("sku", .str v.vsku),
   ("price_cents", .int v.vprice),
   ("availability", .str v.vavail),
   ("image_url", .str v.vimage),
   ("options", .dict v.vopts)]

structure NProduct where
  pid : String
  pname : String
  pdesc : String
  pbrand : String
  pcat : String
  ptags : List JVal
  purl : String
  pimgs : List JVal
  pprice : Int
  pavail : String
  pvars : List NVariant

def NProduct.toDict (P : NProduct) : Dict :=
  [("product_id", .str P.pid),
   ("name", .str P.pname),
   ("description", .str P.pdesc),
   ("brand", .str P.pbrand),
   ("category", .str P.pcat),
   ("tags", .list P.ptags),
   ("url", .str P.purl),
   ("image_urls", .list P.pimgs),
   ("price_cents", .int P.pprice),
   ("availability", .str P.pavail),
   ("variants", .list (P.pvars.map (fun v => .dict v.toDict)))]

/-- What the normalizer actually produces when fed a variant that is
already in the output shape. -/
def renormVariant (v : NVariant) : NVariant :=
  { vid := "", vname := v.vname, vsku := v.vsku, vprice := 0,
    vavail := map_availability v.vavail, vimage := "", vopts := v.vopts }

/-- What the normalizer actually produces when fed a product that is
already in the output shape. -/
def renormProduct (P : NProduct) : NProduct :=
  { pid := "", pname := P.pname, pdesc := P.pdesc, pbrand := "", pcat := "",
    ptags := P.ptags, purl := P.purl, pimgs := [], pprice := 0,
    pavail := map_availability P.pavail, pvars := P.pvars.map renormVariant }

theorem normalizeVariant_normalized (v : NVariant) :
    normalizeVariant v.toDict = .ok (renormVariant v).toDict := by
  have h1 : normalizePrice v.toDict = .ok 0 := rfl
  have h2 : dget v.toDict "availability" (.str "") = .str v.vavail := rfl
  unfold normalizeVariant
  rw [h1, h2, map_availability_val_str]
  simp [NVariant.toDict, renormVariant, orEmptyStr_str, dget, dgetN, dlookup, pyStr]

theorem normalizeVariantList_normalized (vs : List NVariant) :
    normalizeVariantList (vs.map (fun v => .dict v.toDict)) =
      .ok (vs.map (fun v => (renormVariant v).toDict)) := by
  induction vs with
  | nil => rfl
  | cons v rest ih =>
    simp [normalizeVariantList, normalizeVariant_normalized, ih]

/-! ## Lemmas about the fixup steps -/

theorem dgetN_eq_of_dlookup_eq {d d' : Dict} {k : String}
    (h : dlookup d k = dlookup d' k) : dgetN d k = dgetN d' k := by
  unfold dgetN dget
  rw [h]

theorem vendor_fix_frame (pd : Dict) (k : String) (h : k ≠ "vendor") :
    dlookup (vendor_fix pd) k = dlookup pd k := by
  unfold vendor_fix
  split
  · rfl
  · rw [dlookup_dset, if_neg (fun hh => h hh.symm)]

theorem vendor_fix_valid (pd : Dict) (h : truthy (dgetN pd "vendor") = true) :
    vendor_fix pd = pd := by
  unfold vendor_fix
  rw [if_pos h]

theorem id_fix_frame (soup : Soup) (jl : String → Option JVal) (pd : Dict)
    (k : String) (h1 : k ≠ "id") (h2 : k ≠ "gid") :
    dlookup (id_fix soup jl pd) k = dlookup pd k := by
  unfold id_fix
  split
  · cases extract_product_id soup jl with
    | some pid =>
      rw [dlookup_dset, if_neg (fun hh => h2 hh.symm),
        dlookup_dset, if_neg (fun hh => h1 hh.symm)]
    | none => rfl
  · rfl

theorem id_fix_valid (soup : Soup) (jl : String → Option JVal) (pd : Dict)
    (h1 : truthy (dgetN pd "id") = true) (h2 : isNoneStr (dgetN pd "id") = false) :
    id_fix soup jl pd = pd := by
  unfold id_fix
  rw [if_neg]
  simp [h1, h2]

theorem price_fix_frame (soup : Soup) (pd : Dict) (k : String) (h : k ≠ "price") :
    dlookup (price_fix soup pd) k = dlookup pd k := by
  unfold price_fix
  split
  · cases scanPrice soup with
    | some c => rw [dlookup_dset, if_neg (fun hh => h hh.symm)]
    | none => rfl
  · rfl

theorem price_fix_valid (soup : Soup) (pd : Dict)
    (h1 : truthy (dgetN pd "price") = true) (h2 : isPyZero (dgetN pd "price") = false) :
    price_fix soup pd = pd := by
  unfold price_fix
  rw [if_neg]
  simp [h1, h2]

theorem images_fix_frame (soup : Soup) (pd : Dict) (k : String) (h : k ≠ "images") :
    dlookup (images_fix soup pd) k = dlookup pd k := by
  unfold images_fix
  split
  · rw [dlookup_dset, if_neg (fun hh => h hh.symm)]
  · rfl

theorem images_fix_valid (soup : Soup) (pd : Dict) (xs : List JVal)
    (h1 : dgetN pd "images" = .list xs) (h2 : xs ≠ []) :
    images_fix soup pd = pd := by
  unfold images_fix
  rw [if_neg]
  simp [h1, truthy, isJList, List.isEmpty_iff, h2]

theorem description_fix_frame (soup : Soup) (pd : Dict) (k : String)
    (h : k ≠ "description") :
    dlookup (description_fix soup pd) k = dlookup pd k := by
  unfold description_fix
  split
  · cases scanDescription soup with
    | some d => rw [dlookup_dset, if_neg (fun hh => h hh.symm)]
    | none => rfl
  · rfl

theorem description_fix_valid (soup : Soup) (pd : Dict)
    (h1 : truthy (dgetN pd "description") = true) :
    description_fix soup pd = pd := by
  unfold description_fix
  rw [if_neg]
  simp [h1]

theorem variants_fix_frame (soup : Soup) (pd : Dict) (k : String)
    (h : k ≠ "variants") :
    dlookup (variants_fix soup pd) k = dlookup pd k := by
  unfold variants_fix
  split
  · rw [dlookup_dset, if_neg (fun hh => h hh.symm)]
  · rfl

theorem variants_fix_valid (soup : Soup) (pd : Dict) (xs : List JVal)
    (h1 : dgetN pd "variants" = .list xs) (h2 : xs ≠ []) :
    variants_fix soup pd = pd := by
  unfold variants_fix
  rw [if_neg]
  simp [h1, truthy, isJList, List.isEmpty_iff, h2]

/-! ## Lemmas about the fallback extraction body -/

theorem fallback_body_lookup_price (soup : Soup) (url : String) :
    dlookup (_fallback_extraction_body soup url) "price" =
      some (.int ((scanPrice soup).getD 0)) := by
  unfold _fallback_extraction_body
  cases hn : scanName soup <;> cases hp : scanPrice soup <;>
    cases hd : scanDescription soup <;> cases hs : productSlugFromUrl url <;>
      simp [dlookup_dset, fallback_initial, dlookup, _extract_variants_from_html]

theorem fallback_body_lookup_id (soup : Soup) (url : String) :
    dlookup (_fallback_extraction_body soup url) "id" =
      some (match productSlugFromUrl url with
            | some slug => .str slug
            | none => .null) := by
  unfold _fallback_extraction_body
  cases hn : scanName soup <;> cases hp : scanPrice soup <;>
    cases hd : scanDescription soup <;> cases hs : productSlugFromUrl url <;>
      simp [dlookup_dset, fallback_initial, dlookup, _extract_variants_from_html]

/-! ## Lemmas about sitemap encoding -/

theorem append_ne_append {a b : String} (ns : String) (h : a ≠ b) :
    ns ++ a ≠ ns ++ b := by
  intro hh
  apply h
  have hd := congrArg String.data hh
  rw [String.data_append, String.data_append] at hd
  exact String.ext ((List.append_right_inj ns.data).mp hd)

theorem filter_preorder_url (ns : String) (entries : List (Option String)) :
    (preorderList (entries.map (urlElemE ns))).filter
        (fun e => e.tag = ns ++ "url") = entries.map (urlElemE ns) := by
  induction entries with
  | nil => simp [preorderList]
  | cons a rest ih =>
    have hloc : ¬ (ns ++ "loc" = ns ++ "url") := append_ne_append ns (by decide)
    cases a <;>
      simp [preorderList, urlElemE, List.filter_cons, XmlElem.tag_mk, hloc, ih]

theorem filter_preorder_other (ns t : String) (entries : List (Option String))
    (hu : ¬ (ns ++ "url" = t)) (hl : ¬ (ns ++ "loc" = t)) :
    (preorderList (entries.map (urlElemE ns))).filter (fun e => e.tag = t) = [] := by
  induction entries with
  | nil => simp [preorderList]
  | cons a rest ih =>
    cases a <;>
      simp [preorderList, urlElemE, List.filter_cons, XmlElem.tag_mk, hu, hl, ih]

theorem locUrl_urlElemE (ns : String) (loc : Option String) :
    locUrl ns (urlElemE ns loc) = sitemap_candidate loc := by
  cases loc with
  | none => rfl
  | some t =>
    simp [locUrl, urlElemE, find_child, XmlElem.children, List.find?,
      XmlElem.tag, XmlElem.textContent, sitemap_candidate]

theorem filterMap_locUrl_encode (ns : String) (l : List (Option String)) :
    List.filterMap (locUrl ns ∘ urlElemE ns) l = sitemap_candidate_urls l := by
  induction l with
  | nil => rfl
  | cons a rest ih =>
    unfold sitemap_candidate_urls at *
    simp only [List.filterMap_cons, Function.comp_apply, locUrl_urlElemE, ih]

theorem urls_for_namespace_self (ns : String) (entries : List (Option String)) :
    urls_for_namespace (encodeSitemap ns entries) ns =
      if entries.isEmpty then none else some (sitemap_candidate_urls entries) := by
  have hfa : findall_desc (encodeSitemap ns entries) (ns ++ "url") =
      entries.map (urlElemE ns) := filter_preorder_url ns entries
  unfold urls_for_namespace
  rw [hfa]
  cases entries with
  | nil => rfl
  | cons a rest =>
    simp only [List.map_cons, List.isEmpty_cons]
    rw [if_neg (by simp), if_neg (by simp)]
    rw [← List.map_cons, List.filterMap_map, filterMap_locUrl_encode]

theorem urls_for_namespace_other (ns ns' : String) (entries : List (Option String))
    (hu : ¬ (ns ++ "url" = ns' ++ "url")) (hl : ¬ (ns ++ "loc" = ns' ++ "url")) :
    urls_for_namespace (encodeSitemap ns entries) ns' = none := by
  have hfa : findall_desc (encodeSitemap ns entries) (ns' ++ "url") = [] :=
    filter_preorder_other ns (ns' ++ "url") entries hu hl
  unfold urls_for_namespace
  rw [hfa]
  rfl

/-! # Claims -/

/-- A parsed page on which every selector scan comes back empty. -/
def emptySoup : Soup := ⟨fun _ => []⟩

/-- A json.loads oracle that always raises. -/
def noJsonLoads : String → Option JVal := fun _ => none

/-- C1. _map_availability always returns one of the three schema.org
URIs, and it is case-insensitive; but the claimed mapping of inputs
containing "unavailable" to the OutOfStock URI does not hold: every such
input also contains "available", which the InStock branch tests first, so
every input containing "unavailable" maps to the InStock URI and the
"unavailable" disjunct of the OutOfStock branch is unreachable. -/
theorem C1_map_availability_totality_and_unavailable_shadowed (s : String) :
    (map_availability s = InStockURI ∨ map_availability s = OutOfStockURI ∨
      map_availability s = PreOrderURI) ∧
    (pyIn "unavailable" (pyLower s) = true → map_availability s = InStockURI) := by
  refine ⟨map_availability_total s, fun h => ?_⟩
  have hav : pyIn "available" (pyLower s) = true := pyIn_available_of_unavailable h
  by_cases hs : s = ""
  · simp [map_availability, hs]
  · simp [map_availability, hs, hav]

theorem C1_witness : map_availability "unavailable" = InStockURI :=
  (C1_map_availability_totality_and_unavailable_shadowed "unavailable").2 (by decide)

/-- C2 (counterexample). A record already in the normalized output shape
is not a fixed point of the normalizer: renormalizing this sample resets
its brand to the empty string (the normalizer reads the input field name
vendor, which the normalized shape no longer carries). -/
theorem C2_counterexample :
    normalizeProduct
        [("product_id", .str "123"), ("name", .str "Tee"),
         ("description", .str "Soft tee"), ("brand", .str "Acme"),
         ("category", .str "Apparel"), ("tags", .list []),
         ("url", .str "https://shop.example/products/tee"),
         ("image_urls", .list []), ("price_cents", .int 100),
         ("availability", .str "https://schema.org/InStock"),
         ("variants", .list [])] ≠
      .ok [("product_id", .str "123"), ("name", .str "Tee"),
         ("description", .str "Soft tee"), ("brand", .str "Acme"),
         ("category", .str "Apparel"), ("tags", .list []),
         ("url", .str "https://shop.example/products/tee"),
         ("image_urls", .list []), ("price_cents", .int 100),
         ("availability", .str "https://schema.org/InStock"),
         ("variants", .list [])] := by
  intro h
  have h1 : Except.map (fun r => dlookup r "brand")
      (normalizeProduct
        [("product_id", .str "123"), ("name", .str "Tee"),
         ("description", .str "Soft tee"), ("brand", .str "Acme"),
         ("category", .str "Apparel"), ("tags", .list []),
         ("url", .str "https://shop.example/products/tee"),
         ("image_urls", .list []), ("price_cents", .int 100),
         ("availability", .str "https://schema.org/InStock"),
         ("variants", .list [])]) = .ok (some (.str "")) := rfl
  rw [h] at h1
  have h2 : (some (JVal.str "Acme") : Option JVal) = some (.str "") :=
    Except.ok.inj h1
  have h3 : JVal.str "Acme" = .str "" := Option.some.inj h2
  have h4 : "Acme" = "" := by injection h3
  exact absurd h4 (by decide)

/-- C2 (amended). Re-applying the normalization to a record already in
the normalized output shape is not the identity; it preserves name,
description, tags and url (and each variant's name, sku and options),
resets product_id, brand and category to the empty string, image_urls to
the empty list and price_cents to 0 (and likewise variant_id, variant
price_cents and image_url), and replaces availability by
_map_availability of the stored availability, which fixes the InStock and
PreOrder URIs but sends the OutOfStock URI to the InStock URI. -/
theorem C2_renormalize_normalized_shape (P : NProduct) :
    normalizeProduct P.toDict = .ok (renormProduct P).toDict := by
  have h1 : normalizePrice P.toDict = .ok 0 := rfl
  have h2 : dget P.toDict "availability" (.str "") = .str P.pavail := rfl
  have h3 : dget P.toDict "variants" (.list []) =
      .list (P.pvars.map (fun v => .dict v.toDict)) := rfl
  have h4 : normalizeVariantsField (.list (P.pvars.map (fun v => .dict v.toDict))) =
      .ok (P.pvars.map (fun v => (renormVariant v).toDict)) :=
    normalizeVariantList_normalized P.pvars
  unfold normalizeProduct
  rw [h1, h2, map_availability_val_str, h3, h4]
  simp [NProduct.toDict, renormProduct, orEmptyStr_str, dget, dgetN, dlookup,
    pyStr, listOr, List.map_map]

/-- C3 (counterexample). The normalizer passes a negative integer price
through unchanged, so price_cents is not always non-negative. -/
theorem C3_counterexample :
    Except.map (fun r => dlookup r "price_cents")
        (normalizeProduct [("price", .int (-500))]) = .ok (some (.int (-500))) ∧
      (-500 : Int) < 0 :=
  ⟨rfl, by decide⟩

/-- C3 (amended). price_cents equals the record's integer price whenever
the price field holds an integer (so it is non-negative only when the
input is); an absent, null, zero or empty-string price defaults to 0,
for products and variants alike; and a truthy string price that int()
cannot parse makes the normalizer raise instead of defaulting, again for
products and variants alike. -/
theorem C3_price_cents_passthrough :
    (∀ (p r : Dict) (n : Int), dlookup p "price" = some (.int n) →
      normalizeProduct p = .ok r → dlookup r "price_cents" = some (.int n)) ∧
    (∀ (p r : Dict),
      (dlookup p "price" = none ∨ dlookup p "price" = some .null ∨
        dlookup p "price" = some (.int 0) ∨ dlookup p "price" = some (.str "")) →
      normalizeProduct p = .ok r → dlookup r "price_cents" = some (.int 0)) ∧
    (∀ (v out : Dict) (n : Int), dlookup v "price" = some (.int n) →
      normalizeVariant v = .ok out → dlookup out "price_cents" = some (.int n)) ∧
    (∀ (v out : Dict),
      (dlookup v "price" = none ∨ dlookup v "price" = some .null ∨
        dlookup v "price" = some (.int 0) ∨ dlookup v "price" = some (.str "")) →
      normalizeVariant v = .ok out → dlookup out "price_cents" = some (.int 0)) ∧
    (∀ (p : Dict) (s m : String), dlookup p "price" = some (.str s) → s ≠ "" →
      pyIntOfString s = .error m → normalizeProduct p = .error m) ∧
    (∀ (v : Dict) (s m : String), dlookup v "price" = some (.str s) → s ≠ "" →
      pyIntOfString s = .error m → normalizeVariant v = .error m) := by
  refine ⟨?_, ?_, ?_, ?_,
    fun p s m hs hne hbad => normalizeProduct_badPrice hs hne hbad,
    fun v s m hs hne hbad => normalizeVariant_badPrice hs hne hbad⟩
  · intro p r n h1 h2
    obtain ⟨pc, av, vs, hpc, hav, hvs, hr⟩ := normalizeProduct_ok_elim h2
    have hpn : pc = n := Except.ok.inj (hpc.symm.trans (normalizePrice_int h1))
    subst hr
    subst hpn
    rfl
  · intro p r h1 h2
    obtain ⟨pc, av, vs, hpc, hav, hvs, hr⟩ := normalizeProduct_ok_elim h2
    have hpn : pc = 0 := Except.ok.inj (hpc.symm.trans (normalizePrice_default h1))
    subst hr
    subst hpn
    rfl
  · intro v out n h1 h2
    obtain ⟨pc, av, hpc, hav, hr⟩ := normalizeVariant_ok_elim h2
    have hpn : pc = n := Except.ok.inj (hpc.symm.trans (normalizePrice_int h1))
    subst hr
    subst hpn
    rfl
  · intro v out h1 h2
    obtain ⟨pc, av, hpc, hav, hr⟩ := normalizeVariant_ok_elim h2
    have hpn : pc = 0 := Except.ok.inj (hpc.symm.trans (normalizePrice_default h1))
    subst hr
    subst hpn
    rfl

theorem C3_witness :
    (normalizeProduct [("price", .int 7)] =
      .ok [("product_id", .str ""), ("name", .str ""), ("description", .str ""),
           ("brand", .str ""), ("category", .str ""), ("tags", .list []),
           ("url", .str ""), ("image_urls", .list []), ("price_cents", .int 7),
           ("availability", .str "https://schema.org/InStock"), ("variants", .list [])] ∧
      dlookup [("product_id", .str ""), ("name", .str ""), ("description", .str ""),
           ("brand", .str ""), ("category", .str ""), ("tags", .list []),
           ("url", .str ""), ("image_urls", .list []), ("price_cents", .int 7),
           ("availability", .str "https://schema.org/InStock"), ("variants", .list [])]
        "price_cents" = some (.int 7)) ∧
    normalizeProduct [("price", .str "N/A")] =
      .error "ValueError: invalid literal for int()" ∧
    (normalizeVariant [("price", JVal.null)] =
      .ok [("variant_id", .str ""), ("name", .str ""), ("sku", .str ""),
           ("price_cents", .int 0),
           ("availability", .str "https://schema.org/InStock"),
           ("image_url", .str ""), ("options", .dict [])] ∧
      dlookup [("variant_id", .str ""), ("name", .str ""), ("sku", .str ""),
           ("price_cents", .int 0),
           ("availability", .str "https://schema.org/InStock"),
           ("image_url", .str ""), ("options", .dict [])]
        "price_cents" = some (.int 0)) ∧
    normalizeVariant [("price", .str "N/A")] =
      .error "ValueError: invalid literal for int()" := by
  refine ⟨⟨rfl, ?_⟩, ?_, ⟨rfl, ?_⟩, ?_⟩
  · exact C3_price_cents_passthrough.1 [("price", .int 7)] _ 7 rfl rfl
  · exact C3_price_cents_passthrough.2.2.2.2.1 [("price", .str "N/A")] "N/A" _ rfl
      (by decide) rfl
  · exact C3_price_cents_passthrough.2.2.2.1 [("price", JVal.null)] _
      (Or.inr (Or.inl rfl)) rfl
  · exact C3_price_cents_passthrough.2.2.2.2.2 [("price", .str "N/A")] "N/A" _ rfl
      (by decide) rfl

/-- C4. When the GPT service raises, or its response contains no JSON
object substring, or json.loads raises on the extracted substring,
extract_product_data_with_gpt returns the result of _fallback_extraction
on the same page and url; and _fallback_extraction never raises: when its
body fails internally (the BeautifulSoup parse, its only fallible step),
it returns no record. -/
theorem C4_fallback_on_failure :
    (∀ (e : String) (jsonLoads : String → Option JVal)
        (soupE : Except String Soup) (url : String),
      extract_product_data_with_gpt (.error e) jsonLoads soupE url =
        _fallback_extraction soupE url) ∧
    (∀ (raw : String) (jsonLoads : String → Option JVal)
        (soupE : Except String Soup) (url : String),
      findJsonSubstring (pyStrip raw) = none →
      extract_product_data_with_gpt (.ok raw) jsonLoads soupE url =
        _fallback_extraction soupE url) ∧
    (∀ (raw js : String) (jsonLoads : String → Option JVal)
        (soupE : Except String Soup) (url : String),
      findJsonSubstring (pyStrip raw) = some js → jsonLoads js = none →
      extract_product_data_with_gpt (.ok raw) jsonLoads soupE url =
        _fallback_extraction soupE url) ∧
    (∀ (e url : String), _fallback_extraction (.error e) url = none) := by
  refine ⟨fun _ _ _ _ => rfl, ?_, ?_, fun _ _ => rfl⟩
  · intro raw jl soupE url h
    simp only [extract_product_data_with_gpt, h]
  · intro raw js jl soupE url h1 h2
    simp only [extract_product_data_with_gpt, h1, h2]

theorem C4_witness :
    extract_product_data_with_gpt (.ok "no json here") noJsonLoads
        (.ok emptySoup) "https://x.example/p" =
      _fallback_extraction (.ok emptySoup) "https://x.example/p" ∧
    extract_product_data_with_gpt (.ok "\x7b bad json \x7d") noJsonLoads
        (.ok emptySoup) "https://x.example/p" =
      _fallback_extraction (.ok emptySoup) "https://x.example/p" ∧
    _fallback_extraction (.error "parse failure") "https://x.example/p" = none :=
  ⟨C4_fallback_on_failure.2.1 "no json here" noJsonLoads (.ok emptySoup)
      "https://x.example/p" rfl,
    C4_fallback_on_failure.2.2.1 "\x7b bad json \x7d" "\x7b bad json \x7d"
      noJsonLoads (.ok emptySoup) "https://x.example/p" rfl rfl,
    C4_fallback_on_failure.2.2.2 "parse failure" "https://x.example/p"⟩

/-- C5 (counterexample). A present, non-null but empty-string vendor is
falsy, so the fixup overwrites it with the configured store name, even
though the claim says a non-null vendor is left unchanged. -/
theorem C5_counterexample :
    dlookup [(("vendor" : String), JVal.str "")] "vendor" = some (.str "") ∧
    JVal.str "" ≠ .null ∧
    dlookup (_apply_fallback_fixes [("vendor", .str "")] emptySoup noJsonLoads)
        "vendor" = some (.str "Down to Earth Project LLC") ∧
    JVal.str "Down to Earth Project LLC" ≠ .str "" := by
  refine ⟨rfl, fun h => by injection h, rfl, fun h => ?_⟩
  have h2 : "Down to Earth Project LLC" = "" := by injection h
  exact absurd h2 (by decide)

/-- C5 (amended). _apply_fallback_fixes writes only the fields vendor,
id, gid, price, images, description and variants — every other field is
returned exactly as given — and leaves each of those alone exactly when
its truthiness guard holds: a truthy vendor; a truthy id that is not the
string "None"; a truthy price other than 0; a non-empty list images; a
truthy description; a non-empty list variants. (Falsy values such as the
empty string or the empty list are refilled even when present and
non-null.) -/
theorem C5_fixup_frame_and_guards (pd : Dict) (soup : Soup)
    (jl : String → Option JVal) :
    (∀ k, k ≠ "vendor" → k ≠ "id" → k ≠ "gid" → k ≠ "price" → k ≠ "images" →
      k ≠ "description" → k ≠ "variants" →
      dlookup (_apply_fallback_fixes pd soup jl) k = dlookup pd k) ∧
    (truthy (dgetN pd "vendor") = true →
      dlookup (_apply_fallback_fixes pd soup jl) "vendor" = dlookup pd "vendor") ∧
    (truthy (dgetN pd "id") = true → isNoneStr (dgetN pd "id") = false →
      dlookup (_apply_fallback_fixes pd soup jl) "id" = dlookup pd "id" ∧
      dlookup (_apply_fallback_fixes pd soup jl) "gid" = dlookup pd "gid") ∧
    (truthy (dgetN pd "price") = true → isPyZero (dgetN pd "price") = false →
      dlookup (_apply_fallback_fixes pd soup jl) "price" = dlookup pd "price") ∧
    (∀ xs, dgetN pd "images" = .list xs → xs ≠ [] →
      dlookup (_apply_fallback_fixes pd soup jl) "images" = dlookup pd "images") ∧
    (truthy (dgetN pd "description") = true →
      dlookup (_apply_fallback_fixes pd soup jl) "description" =
        dlookup pd "description") ∧
    (∀ xs, dgetN pd "variants" = .list xs → xs ≠ [] →
      dlookup (_apply_fallback_fixes pd soup jl) "variants" =
        dlookup pd "variants") := by
  refine ⟨?_, ?_, ?_, ?_, ?_, ?_, ?_⟩
  · intro k h1 h2 h3 h4 h5 h6 h7
    unfold _apply_fallback_fixes
    rw [variants_fix_frame _ _ _ h7, description_fix_frame _ _ _ h6,
      images_fix_frame _ _ _ h5, price_fix_frame _ _ _ h4,
      id_fix_frame _ _ _ _ h2 h3, vendor_fix_frame _ _ h1]
  · intro h
    unfold _apply_fallback_fixes
    rw [vendor_fix_valid pd h]
    rw [variants_fix_frame _ _ _ (by decide), description_fix_frame _ _ _ (by decide),
      images_fix_frame _ _ _ (by decide), price_fix_frame _ _ _ (by decide),
      id_fix_frame _ _ _ _ (by decide) (by decide)]
  · intro h1 h2
    unfold _apply_fallback_fixes
    have hv : dlookup (vendor_fix pd) "id" = dlookup pd "id" :=
      vendor_fix_frame pd "id" (by decide)
    have hg : dlookup (vendor_fix pd) "gid" = dlookup pd "gid" :=
      vendor_fix_frame pd "gid" (by decide)
    have hN : dgetN (vendor_fix pd) "id" = dgetN pd "id" := dgetN_eq_of_dlookup_eq hv
    rw [id_fix_valid soup jl (vendor_fix pd) (by rw [hN]; exact h1)
      (by rw [hN]; exact h2)]
    constructor
    · rw [variants_fix_frame _ _ _ (by decide), description_fix_frame _ _ _ (by decide),
        images_fix_frame _ _ _ (by decide), price_fix_frame _ _ _ (by decide)]
      exact hv
    · rw [variants_fix_frame _ _ _ (by decide), description_fix_frame _ _ _ (by decide),
        images_fix_frame _ _ _ (by decide), price_fix_frame _ _ _ (by decide)]
      exact hg
  · intro h1 h2
    unfold _apply_fallback_fixes
    have hp : dlookup (id_fix soup jl (vendor_fix pd)) "price" = dlookup pd "price" := by
      rw [id_fix_frame _ _ _ _ (by decide) (by decide), vendor_fix_frame _ _ (by decide)]
    have hN : dgetN (id_fix soup jl (vendor_fix pd)) "price" = dgetN pd "price" :=
      dgetN_eq_of_dlookup_eq hp
    rw [price_fix_valid soup _ (by rw [hN]; exact h1) (by rw [hN]; exact h2)]
    rw [variants_fix_frame _ _ _ (by decide), description_fix_frame _ _ _ (by decide),
      images_fix_frame _ _ _ (by decide)]
    exact hp
  · intro xs h1 h2
    unfold _apply_fallback_fixes
    have hi : dlookup (price_fix soup (id_fix soup jl (vendor_fix pd))) "images" =
        dlookup pd "images" := by
      rw [price_fix_frame _ _ _ (by decide), id_fix_frame _ _ _ _ (by decide) (by decide),
        vendor_fix_frame _ _ (by decide)]
    have hN : dgetN (price_fix soup (id_fix soup jl (vendor_fix pd))) "images" =
        dgetN pd "images" := dgetN_eq_of_dlookup_eq hi
    rw [images_fix_valid soup _ xs (by rw [hN]; exact h1) h2]
    rw [variants_fix_frame _ _ _ (by decide), description_fix_frame _ _ _ (by decide)]
    exact hi
  · intro h1
    unfold _apply_fallback_fixes
    have hd : dlookup (images_fix soup (price_fix soup (id_fix soup jl
        (vendor_fix pd)))) "description" = dlookup pd "description" := by
      rw [images_fix_frame _ _ _ (by decide), price_fix_frame _ _ _ (by decide),
        id_fix_frame _ _ _ _ (by decide) (by decide), vendor_fix_frame _ _ (by decide)]
    have hN : dgetN (images_fix soup (price_fix soup (id_fix soup jl
        (vendor_fix pd)))) "description" = dgetN pd "description" :=
      dgetN_eq_of_dlookup_eq hd
    rw [description_fix_valid soup _ (by rw [hN]; exact h1)]
    rw [variants_fix_frame _ _ _ (by decide)]
    exact hd
  · intro xs h1 h2
    unfold _apply_fallback_fixes
    have hv : dlookup (description_fix soup (images_fix soup (price_fix soup
        (id_fix soup jl (vendor_fix pd))))) "variants" = dlookup pd "variants" := by
      rw [description_fix_frame _ _ _ (by decide), images_fix_frame _ _ _ (by decide),
        price_fix_frame _ _ _ (by decide), id_fix_frame _ _ _ _ (by decide) (by decide),
        vendor_fix_frame _ _ (by decide)]
    have hN : dgetN (description_fix soup (images_fix soup (price_fix soup
        (id_fix soup jl (vendor_fix pd))))) "variants" = dgetN pd "variants" :=
      dgetN_eq_of_dlookup_eq hv
    rw [variants_fix_valid soup _ xs (by rw [hN]; exact h1) h2]
    exact hv

/-- A record whose seven fixable fields are all already valid, plus one
unrelated field. -/
def c5record : Dict :=
  [("vendor", .str "V"), ("id", .str "42"),
   ("gid", .str "gid://shopify/Product/42"), ("price", .int 5),
   ("images", .list [.str "https://cdn.shopify.com/i.jpg"]),
   ("description", .str "d"), ("variants", .list [.dict []]),
   ("weight", .str "1kg")]

theorem C5_witness :
    dlookup (_apply_fallback_fixes c5record emptySoup noJsonLoads) "weight" =
      some (.str "1kg") ∧
    dlookup (_apply_fallback_fixes c5record emptySoup noJsonLoads) "vendor" =
      some (.str "V") ∧
    dlookup (_apply_fallback_fixes c5record emptySoup noJsonLoads) "id" =
      some (.str "42") ∧
    dlookup (_apply_fallback_fixes c5record emptySoup noJsonLoads) "gid" =
      some (.str "gid://shopify/Product/42") ∧
    dlookup (_apply_fallback_fixes c5record emptySoup noJsonLoads) "price" =
      some (.int 5) ∧
    dlookup (_apply_fallback_fixes c5record emptySoup noJsonLoads) "images" =
      some (.list [.str "https://cdn.shopify.com/i.jpg"]) ∧
    dlookup (_apply_fallback_fixes c5record emptySoup noJsonLoads) "description" =
      some (.str "d") ∧
    dlookup (_apply_fallback_fixes c5record emptySoup noJsonLoads) "variants" =
      some (.list [.dict []]) := by
  have H := C5_fixup_frame_and_guards c5record emptySoup noJsonLoads
  exact ⟨(H.1 "weight" (by decide) (by decide) (by decide) (by decide) (by decide)
      (by decide) (by decide)).trans rfl,
    (H.2.1 rfl).trans rfl,
    ((H.2.2.1 rfl rfl).1).trans rfl,
    ((H.2.2.1 rfl rfl).2).trans rfl,
    (H.2.2.2.1 rfl rfl).trans rfl,
    (H.2.2.2.2.1 [.str "https://cdn.shopify.com/i.jpg"] rfl (by simp)).trans rfl,
    (H.2.2.2.2.2.1 rfl).trans rfl,
    (H.2.2.2.2.2.2 [.dict []] rfl (by simp)).trans rfl⟩

/-- C6. Encoding the same sitemap entries in any of the three recognized
namespace forms (standard sitemap namespace, no namespace, legacy Google
namespace) yields the identical candidate product URL list: each form
evaluates to the namespace-independent per-entry filter, because the
candidate loop tries the forms in fixed order and the first one whose url
elements exist wins. -/
theorem C6_namespace_form_independence (entries : List (Option String)) :
    get_product_urls_from_sitemap
        (encodeSitemap "\x7bhttp://www.sitemaps.org/schemas/sitemap/0.9\x7d" entries) =
      sitemap_candidate_urls entries ∧
    get_product_urls_from_sitemap (encodeSitemap "" entries) =
      sitemap_candidate_urls entries ∧
    get_product_urls_from_sitemap
        (encodeSitemap "\x7bhttp://www.google.com/schemas/sitemap/0.84\x7d" entries) =
      sitemap_candidate_urls entries := by
  refine ⟨?_, ?_, ?_⟩
  · unfold get_product_urls_from_sitemap sitemap_namespaces
    rw [List.findSome?_cons, urls_for_namespace_self]
    cases entries with
    | nil =>
      rw [if_pos (show ([] : List (Option String)).isEmpty = true from rfl)]
      rw [List.findSome?_cons,
        urls_for_namespace_other "\x7bhttp://www.sitemaps.org/schemas/sitemap/0.9\x7d" ""
          [] (by decide) (by decide)]
      rw [List.findSome?_cons,
        urls_for_namespace_other "\x7bhttp://www.sitemaps.org/schemas/sitemap/0.9\x7d"
          "\x7bhttp://www.google.com/schemas/sitemap/0.84\x7d" [] (by decide) (by decide)]
      rfl
    | cons a rest => rw [if_neg (by simp)]
  · unfold get_product_urls_from_sitemap sitemap_namespaces
    rw [List.findSome?_cons,
      urls_for_namespace_other "" "\x7bhttp://www.sitemaps.org/schemas/sitemap/0.9\x7d"
        entries (by decide) (by decide)]
    rw [List.findSome?_cons, urls_for_namespace_self]
    cases entries with
    | nil =>
      rw [if_pos (show ([] : List (Option String)).isEmpty = true from rfl)]
      rw [List.findSome?_cons,
        urls_for_namespace_other ""
          "\x7bhttp://www.google.com/schemas/sitemap/0.84\x7d" [] (by decide) (by decide)]
      rfl
    | cons a rest => rw [if_neg (by simp)]
  · unfold get_product_urls_from_sitemap sitemap_namespaces
    rw [List.findSome?_cons,
      urls_for_namespace_other "\x7bhttp://www.google.com/schemas/sitemap/0.84\x7d"
        "\x7bhttp://www.sitemaps.org/schemas/sitemap/0.9\x7d"
        entries (by decide) (by decide)]
    rw [List.findSome?_cons,
      urls_for_namespace_other "\x7bhttp://www.google.com/schemas/sitemap/0.84\x7d" ""
        entries (by decide) (by decide)]
    rw [List.findSome?_cons, urls_for_namespace_self]
    cases entries with
    | nil =>
      rw [if_pos (show ([] : List (Option String)).isEmpty = true from rfl)]
      rfl
    | cons a rest => rw [if_neg (by simp)]

/-- C7. The orchestrator submits one unit of work per distinct URL of its
input list: every URL of the input appears exactly once in the submitted
collection, and nothing else does. -/
theorem C7_dedup_exactly_once (urls : List String) (u : String) :
    (scrape_all_products_submissions urls).count u = if u ∈ urls then 1 else 0 :=
  List.count_dedup urls u

/-- C8. The structural price parser maps the price text representing 150
dollars to 15000 cents, and when no price selector yields an element with
parseable text, the fallback record keeps price 0. -/
theorem C8_price_parsing :
    priceTextToCents "$150.00" = some 15000 ∧
    ∀ (soup : Soup) (url : String),
      (∀ sel ∈ price_selectors,
        (match soup.select_one sel with
         | some price_elem => priceTextToCents (pyStrip price_elem.text)
         | none => none) = none) →
      dlookup (_fallback_extraction_body soup url) "price" = some (.int 0) := by
  refine ⟨rfl, fun soup url h => ?_⟩
  have hp : scanPrice soup = none := by
    unfold scanPrice
    exact List.findSome?_eq_none_iff.mpr h
  rw [fallback_body_lookup_price, hp]
  rfl

theorem C8_witness :
    dlookup (_fallback_extraction_body emptySoup "https://shop.example/") "price" =
      some (.int 0) :=
  C8_price_parsing.2 emptySoup "https://shop.example/" (fun _ _ => rfl)

/-- C9. The price regex takes only the first match, so the
thousands-separated price text of 1299 dollars parses as the cents value
of its first digit run: 100 cents, not 129900. -/
theorem C9_comma_price_first_run :
    priceTextToCents "$1,299.00" = some 100 ∧
    priceTextToCents "$1,299.00" ≠ some 129900 :=
  ⟨rfl, by decide⟩

/-- C10. A record whose id field is null serializes product_id as the
literal string "None" (not the empty string), a variant with null id
serializes variant_id as "None", and the fallback extractor produces a
null id exactly when the url has no product slug. -/
theorem C10_null_id_serialized_as_None :
    (∀ (p r : Dict), dlookup p "id" = some .null → normalizeProduct p = .ok r →
      dlookup r "product_id" = some (.str "None") ∧ JVal.str "None" ≠ .str "") ∧
    (∀ (v out : Dict), dlookup v "id" = some .null → normalizeVariant v = .ok out →
      dlookup out "variant_id" = some (.str "None")) ∧
    (∀ (soup : Soup) (url : String), productSlugFromUrl url = none →
      dlookup (_fallback_extraction_body soup url) "id" = some .null) := by
  refine ⟨?_, ?_, fun soup url h => ?_⟩
  · intro p r h1 h2
    obtain ⟨pc, av, vs, hpc, hav, hvs, hr⟩ := normalizeProduct_ok_elim h2
    have hid : dget p "id" (.str "") = .null := by unfold dget; rw [h1]; rfl
    subst hr
    refine ⟨by rw [hid]; rfl, fun hh => ?_⟩
    have h3 : "None" = "" := by injection hh
    exact absurd h3 (by decide)
  · intro v out h1 h2
    obtain ⟨pc, av, hpc, hav, hr⟩ := normalizeVariant_ok_elim h2
    have hid : dget v "id" (.str "") = .null := by unfold dget; rw [h1]; rfl
    subst hr
    rw [hid]
    rfl
  · rw [fallback_body_lookup_id, h]

theorem C10_witness :
    (normalizeProduct [("id", JVal.null)] =
      .ok [("product_id", .str "None"), ("name", .str ""), ("description", .str ""),
           ("brand", .str ""), ("category", .str ""), ("tags", .list []),
           ("url", .str ""), ("image_urls", .list []), ("price_cents", .int 0),
           ("availability", .str "https://schema.org/InStock"),
           ("variants", .list [])] ∧
      dlookup [("product_id", .str "None"), ("name", .str ""), ("description", .str ""),
           ("brand", .str ""), ("category", .str ""), ("tags", .list []),
           ("url", .str ""), ("image_urls", .list []), ("price_cents", .int 0),
           ("availability", .str "https://schema.org/InStock"),
           ("variants", .list [])] "product_id" = some (.str "None")) ∧
    dlookup (_fallback_extraction_body emptySoup "https://shop.example/pages/about")
      "id" = some .null := by
  refine ⟨⟨rfl, ?_⟩, C10_null_id_serialized_as_None.2.2 emptySoup
    "https://shop.example/pages/about" rfl⟩
  exact (C10_null_id_serialized_as_None.1 [("id", JVal.null)]
    [("product_id", .str "None"), ("name", .str ""), ("description", .str ""),
     ("brand", .str ""), ("category", .str ""), ("tags", .list []),
     ("url", .str ""), ("image_urls", .list []), ("price_cents", .int 0),
     ("availability", .str "https://schema.org/InStock"),
     ("variants", .list [])] rfl rfl).1

end SlashAsk
